import Mathlib

/-!
Verification of the Ember mug monitor (`mug.py`): binary characteristic
decoders, the characteristic registry, the concurrent snapshot assembler
(`get_mug`), and the poll loop's projection and transition-detection logic.

Bytearrays are modelled as `List ℕ` (each element a byte value), Python
floats as `ℚ` (the program only multiplies by the literals 0.01 and 1.8 and
adds 32), and exceptions as an explicit `Err` type carried in `Except`.
-/

/-- Errors a decode or transport operation can raise, mirroring the Python
exceptions: `struct.error` on a wrong-size buffer (`wrongLength`),
`ValueError` from an `IntEnum` constructor (`unknownVariant`), `IndexError`
from out-of-range `data[i]` (`indexError`), `UnicodeDecodeError` from
`.decode("ascii")` (`encodingError`), `KeyError` from a missing registry key
(`keyError`), a transport failure from `read_gatt_char` (`transport`), and
two embedding-internal impossible branches (`typeError`, `incomplete`). -/
inductive Err where
  | wrongLength
  | unknownVariant
  | indexError
  | encodingError
  | keyError
  | typeError
  | incomplete
  | transport
  deriving Repr, DecidableEq

instance {ε α : Type} [DecidableEq ε] [DecidableEq α] :
    DecidableEq (Except ε α) := fun x y =>
  match x, y with
  | .ok a, .ok b =>
      if h : a = b then .isTrue (by rw [h])
      else .isFalse (by intro hc; cases hc; exact h rfl)
  | .error a, .error b =>
      if h : a = b then .isTrue (by rw [h])
      else .isFalse (by intro hc; cases hc; exact h rfl)
  | .ok _, .error _ => .isFalse (by intro hc; cases hc)
  | .error _, .ok _ => .isFalse (by intro hc; cases hc)

/-- Python `data[i]` on a bytearray: the byte, or `IndexError` out of range. -/
def getByte : List ℕ → ℕ → Except Err ℕ
  | [], _ => .error .indexError
  | b :: _, 0 => .ok b
  | _ :: bs, n + 1 => getByte bs n

/-- `Temp` dataclass: dual-unit temperature. -/
structure Temp where
  c : ℚ
  f : ℚ
  deriving Repr, DecidableEq, Inhabited

/-- `CurrentTemp` dataclass. -/
structure CurrentTemp where
  temp : Temp
  deriving Repr, DecidableEq, Inhabited

/-- `TargetTemp` dataclass. -/
structure TargetTemp where
  temp : Temp
  deriving Repr, DecidableEq, Inhabited

/-- `LiquidLevel` dataclass. -/
structure LiquidLevel where
  level : ℕ
  deriving Repr, DecidableEq, Inhabited

/-- `Battery` dataclass. -/
structure Battery where
  percent : ℕ
  charging : Bool
  deriving Repr, DecidableEq, Inhabited

/-- `LiquidState` IntEnum with values 1..6. -/
inductive LiquidState where
  | Empty
  | Filling
  | Unknown
  | Cooling
  | Heating
  | Stable
  deriving Repr, DecidableEq, Inhabited

/-- `MugColor` dataclass. -/
structure MugColor where
  r : ℕ
  g : ℕ
  b : ℕ
  a : ℕ
  deriving Repr, DecidableEq, Inhabited

/-- `MugName` dataclass. -/
structure MugName where
  name : String
  deriving Repr, DecidableEq, Inhabited

/-- `TempUnit` IntEnum: C = 0, F = 1. -/
inductive TempUnit where
  | C
  | F
  deriving Repr, DecidableEq, Inhabited

/-- `Mug` dataclass: one assembled snapshot. -/
structure Mug where
  name : MugName
  current_temp : CurrentTemp
  target_temp : TargetTemp
  temp_unit : TempUnit
  liquid_level : LiquidLevel
  battery : Battery
  liquid_state : LiquidState
  color : MugColor
  deriving Repr, DecidableEq, Inhabited

/-- `c_to_f(c) = float(c) * 1.8 + 32`. -/
def c_to_f (c : ℚ) : ℚ :=
  c * 1.8 + 32

/-- `read_uint16`: `struct.unpack("<h", data)[0]` — despite the name it
unpacks a signed little-endian 16-bit integer, and `struct` raises an
error unless the buffer is exactly 2 bytes. -/
def read_uint16 (data : List ℕ) : Except Err ℤ :=
  match data with
  | [b0, b1] =>
      .ok (if b0 + b1 * 256 < 32768 then (b0 + b1 * 256 : ℤ)
           else (b0 + b1 * 256 : ℤ) - 65536)
  | _ => .error .wrongLength

/-- The signed little-endian 16-bit interpretation of two bytes, as the
spec describes it (`int16_le`). -/
def int16_le (b0 b1 : ℕ) : ℤ :=
  if b0 + b1 * 256 < 32768 then (b0 + b1 * 256 : ℤ)
  else (b0 + b1 * 256 : ℤ) - 65536

/-- `read_temp`: `c = read_uint16(data) * 0.01; Temp(c, c_to_f(c))`. -/
def read_temp (data : List ℕ) : Except Err Temp :=
  (read_uint16 data).map fun (r : ℤ) =>
    { c := (r : ℚ) * 0.01, f := c_to_f ((r : ℚ) * 0.01) }

/-- `decode_current_temp`. -/
def decode_current_temp (data : List ℕ) : Except Err CurrentTemp :=
  (read_temp data).map CurrentTemp.mk

/-- `decode_target_temp`. -/
def decode_target_temp (data : List ℕ) : Except Err TargetTemp :=
  (read_temp data).map TargetTemp.mk

/-- `decode_liquid_level`: `LiquidLevel(data[0])`. -/
def decode_liquid_level (data : List ℕ) : Except Err LiquidLevel :=
  (getByte data 0).map LiquidLevel.mk

/-- `decode_battery`: `Battery(data[0], bool(data[1]))`. -/
def decode_battery (data : List ℕ) : Except Err Battery := do
  let b0 ← getByte data 0
  let b1 ← getByte data 1
  .ok { percent := b0, charging := b1 != 0 }

/-- `LiquidState(byte)`: the IntEnum constructor, `None` for a value
outside 1..6. -/
def liquidStateOfByte : ℕ → Option LiquidState
  | 1 => some .Empty
  | 2 => some .Filling
  | 3 => some .Unknown
  | 4 => some .Cooling
  | 5 => some .Heating
  | 6 => some .Stable
  | _ => none

/-- `decode_liquid_state`: `LiquidState(data[0])`, `ValueError` on an
unknown variant. -/
def decode_liquid_state (data : List ℕ) : Except Err LiquidState := do
  let b ← getByte data 0
  match liquidStateOfByte b with
  | some s => .ok s
  | none => .error .unknownVariant

/-- `decode_mug_color`: `MugColor(data[0], data[1], data[2], data[3])`. -/
def decode_mug_color (data : List ℕ) : Except Err MugColor := do
  let r ← getByte data 0
  let g ← getByte data 1
  let b ← getByte data 2
  let a ← getByte data 3
  .ok { r := r, g := g, b := b, a := a }

/-- `decode_mug_name`: `data.decode("ascii")`, failing on a byte ≥ 128. -/
def decode_mug_name (data : List ℕ) : Except Err MugName :=
  if data.all (fun b => decide (b < 128)) then
    .ok { name := String.mk (data.map Char.ofNat) }
  else
    .error .encodingError

/-- `decode_temp_unit`: `TempUnit(data[0])`, `ValueError` unless 0 or 1. -/
def decode_temp_unit (data : List ℕ) : Except Err TempUnit := do
  let b ← getByte data 0
  match b with
  | 0 => .ok .C
  | 1 => .ok .F
  | _ => .error .unknownVariant

/-- The dynamically-typed value a registry decoder returns (Python stores
them heterogeneously in `CHARACTERISTICS` and in `attrs`). -/
inductive Value where
  | name (v : MugName)
  | currentTemp (v : CurrentTemp)
  | targetTemp (v : TargetTemp)
  | tempUnit (v : TempUnit)
  | liquidLevel (v : LiquidLevel)
  | battery (v : Battery)
  | liquidState (v : LiquidState)
  | mugColor (v : MugColor)
  deriving Repr, DecidableEq, Inhabited

/-- The `CHARACTERISTICS` registry: field name ↦ (UUID, decoder), in the
source's entry order. -/
def CHARACTERISTICS : List (String × String × (List ℕ → Except Err Value)) :=
  [("mug-name", ("fc540001-236c-4c94-8fa9-944a3e5353fa",
      fun d => (decode_mug_name d).map Value.name)),
   ("current-temp", ("fc540002-236c-4c94-8fa9-944a3e5353fa",
      fun d => (decode_current_temp d).map Value.currentTemp)),
   ("target-temp", ("fc540003-236c-4c94-8fa9-944a3e5353fa",
      fun d => (decode_target_temp d).map Value.targetTemp)),
   ("temp-unit", ("fc540004-236c-4c94-8fa9-944a3e5353fa",
      fun d => (decode_temp_unit d).map Value.tempUnit)),
   ("liquid-level", ("fc540005-236c-4c94-8fa9-944a3e5353fa",
      fun d => (decode_liquid_level d).map Value.liquidLevel)),
   ("battery", ("fc540007-236c-4c94-8fa9-944a3e5353fa",
      fun d => (decode_battery d).map Value.battery)),
   ("liquid-state", ("fc540008-236c-4c94-8fa9-944a3e5353fa",
      fun d => (decode_liquid_state d).map Value.liquidState)),
   ("mug-color", ("fc540014-236c-4c94-8fa9-944a3e5353fa",
      fun d => (decode_mug_color d).map Value.mugColor))]

/-- The 8 canonical keys in the order `get_mug` launches its reads — the
same order as the `Mug` dataclass fields. -/
def mugKeys : List String :=
  ["mug-name", "current-temp", "target-temp", "temp-unit",
   "liquid-level", "battery", "liquid-state", "mug-color"]

/-- `read_char(client, k)`: look `k` up in the registry, read the UUID over
the transport (`resp` stands for `client.read_gatt_char`), and decode. -/
def read_char (resp : String → Except Err (List ℕ)) (k : String) :
    Except Err Value :=
  match CHARACTERISTICS.find? (fun e => e.1 == k) with
  | some (_, uuid, dec) => (resp uuid).bind dec
  | none => .error .keyError

/-- The value task `i` deposits in its result slot when it completes
successfully, `none` when it raises. -/
def writeVal (tasks : List (Except Err Value)) (i : ℕ) : Option Value :=
  match tasks[i]? with
  | some (.ok a) => some a
  | _ => none

/-- The first-exception register of `asyncio.gather`: the first error seen
in completion order is kept. -/
def stepErr (tasks : List (Except Err Value)) (i : ℕ) (err : Option Err) :
    Option Err :=
  match err with
  | some e => some e
  | none =>
      match tasks[i]? with
      | some (.error e) => some e
      | _ => none

/-- Run the gathered tasks in completion order `order`: each completing
task fills its positional slot, a raising task records its exception if it
is the first. -/
def fillSlots (tasks : List (Except Err Value)) :
    List ℕ → List (Option Value) → Option Err →
    List (Option Value) × Option Err
  | [], slots, err => (slots, err)
  | i :: rest, slots, err =>
      fillSlots tasks rest (slots.set i (writeVal tasks i))
        (stepErr tasks i err)

/-- Collect the slots once all tasks finished; `none` if any slot is empty. -/
def allSome : List (Option Value) → Option (List Value)
  | [] => some []
  | none :: _ => none
  | some v :: rest => (allSome rest).map (v :: ·)

/-- `asyncio.gather(*tasks)` observed under completion order `order`:
results are delivered positionally; the first exception in completion
order propagates instead. -/
def gatherE (tasks : List (Except Err Value)) (order : List ℕ) :
    Except Err (List Value) :=
  let r := fillSlots tasks order (List.replicate tasks.length none) none
  match r.2 with
  | some e => .error e
  | none =>
      match allSome r.1 with
      | some vs => .ok vs
      | none => .error .incomplete

/-- `Mug(*attrs)`: positional construction from the 8 gathered values. -/
def mkMug : List Value → Except Err Mug
  | [.name a, .currentTemp b, .targetTemp c, .tempUnit d,
     .liquidLevel e, .battery f, .liquidState g, .mugColor h] =>
      .ok { name := a, current_temp := b, target_temp := c, temp_unit := d,
            liquid_level := e, battery := f, liquid_state := g, color := h }
  | _ => .error .typeError

/-- `get_mug(client)`: launch the 8 reads, gather them under completion
order `order`, and build the `Mug` positionally. -/
def get_mug (resp : String → Except Err (List ℕ)) (order : List ℕ) :
    Except Err Mug :=
  (gatherE (mugKeys.map (read_char resp)) order).bind mkMug

/-- `temp_str(temp, unit)`. -/
def temp_str (temp : Temp) (unit : TempUnit) : ℚ × String :=
  if unit = TempUnit.C then (temp.c, "C") else (temp.f, "F")

/-- The main loop's unit projection (lines 46–53): `C` picks `.c`,
otherwise `.f`. -/
def projectTemp (unit : TempUnit) (t : Temp) : ℚ :=
  if unit = TempUnit.C then t.c else t.f

/-- The loop's local variables: `temp_unit` and `temp_total` bound before
the `while`, `state` the previous liquid state (`None` initially). -/
structure LoopSt where
  temp_unit : TempUnit
  temp_total : ℚ
  state : Option LiquidState
  deriving Repr, DecidableEq, Inhabited

/-- What one loop cycle emits: the temperature-bar `completed` update, the
bar's total in effect (never re-sent by the loop), the battery-bar update,
and the logged transition event if any. -/
structure CycleOut where
  tempCompleted : ℚ
  barTotal : ℚ
  batteryCompleted : ℕ
  event : Option (Option LiquidState × LiquidState)
  deriving Repr, DecidableEq, Inhabited

/-- Lines 29–41: `state = None`, `temp_unit = mug.temp_unit`,
`temp_total = mug.target_temp.temp.c` overridden to `.f` when the unit
is `F` — all taken from the first snapshot. -/
def initLoopSt (m0 : Mug) : LoopSt :=
  { temp_unit := m0.temp_unit,
    temp_total := if m0.temp_unit = TempUnit.F then m0.target_temp.temp.f
                  else m0.target_temp.temp.c,
    state := none }

/-- One body of the `while True` loop on a fresh snapshot `m`. -/
def cycle (st : LoopSt) (m : Mug) : LoopSt × CycleOut :=
  let tc := projectTemp st.temp_unit m.current_temp.temp
  if st.state ≠ some m.liquid_state then
    ({ st with state := some m.liquid_state },
     { tempCompleted := tc, barTotal := st.temp_total,
       batteryCompleted := m.battery.percent,
       event := some (st.state, m.liquid_state) })
  else
    (st,
     { tempCompleted := tc, barTotal := st.temp_total,
       batteryCompleted := m.battery.percent, event := none })

/-- Iterate the loop body over the successive snapshots. -/
def runLoop : LoopSt → List Mug → List CycleOut
  | _, [] => []
  | st, m :: rest => (cycle st m).2 :: runLoop (cycle st m).1 rest

/-- The poll loop started from the first snapshot `m0`, observing the
snapshot sequence `ms` in its body. -/
def pollOutputs (m0 : Mug) (ms : List Mug) : List CycleOut :=
  runLoop (initLoopSt m0) ms

/-- The transition events the loop logs, in order. -/
def transEvents (m0 : Mug) (ms : List Mug) :
    List (Option LiquidState × LiquidState) :=
  (pollOutputs m0 ms).filterMap CycleOut.event

/-- A stub transport where all 8 characteristic reads succeed with fixed
response bytes, for exercising `get_mug`. -/
def stubResp : String → Except Err (List ℕ) := fun u =>
  if u = "fc540001-236c-4c94-8fa9-944a3e5353fa" then .ok [69, 109, 98, 101, 114]
  else if u = "fc540002-236c-4c94-8fa9-944a3e5353fa" then .ok [208, 7]
  else if u = "fc540003-236c-4c94-8fa9-944a3e5353fa" then .ok [16, 14]
  else if u = "fc540004-236c-4c94-8fa9-944a3e5353fa" then .ok [1]
  else if u = "fc540005-236c-4c94-8fa9-944a3e5353fa" then .ok [2]
  else if u = "fc540007-236c-4c94-8fa9-944a3e5353fa" then .ok [50, 1]
  else if u = "fc540008-236c-4c94-8fa9-944a3e5353fa" then .ok [6]
  else if u = "fc540014-236c-4c94-8fa9-944a3e5353fa" then .ok [255, 0, 0, 255]
  else .error .transport

/-- A stub transport identical to `stubResp` except that the battery
characteristic read raises a transport error. -/
def stubRespFail : String → Except Err (List ℕ) := fun u =>
  if u = "fc540007-236c-4c94-8fa9-944a3e5353fa" then .error .transport
  else stubResp u

/-- A snapshot with the given liquid state and otherwise fixed fields. -/
def snapWith (s : LiquidState) : Mug :=
  { name := { name := "Ember" },
    current_temp := { temp := { c := 20, f := 68 } },
    target_temp := { temp := { c := 55, f := 131 } },
    temp_unit := .C,
    liquid_level := { level := 2 },
    battery := { percent := 50, charging := false },
    liquid_state := s,
    color := { r := 255, g := 0, b := 0, a := 255 } }

/-- The liquid-state sequence `[Heating, Heating, Stable, Stable, Cooling]`
as a snapshot sequence. -/
def snapsHHSSC : List Mug :=
  [snapWith .Heating, snapWith .Heating, snapWith .Stable,
   snapWith .Stable, snapWith .Cooling]

/-- A first snapshot configured in Fahrenheit, for exercising the loop's
unit/total capture. -/
def mugF : Mug :=
  { name := { name := "Ember" },
    current_temp := { temp := { c := 20, f := 68 } },
    target_temp := { temp := { c := 55, f := 131 } },
    temp_unit := .F,
    liquid_level := { level := 2 },
    battery := { percent := 50, charging := false },
    liquid_state := .Heating,
    color := { r := 255, g := 0, b := 0, a := 255 } }

/-- A later snapshot that reports a different unit and target than `mugF`. -/
def mugLater : Mug :=
  { name := { name := "Ember" },
    current_temp := { temp := { c := 20, f := 68 } },
    target_temp := { temp := { c := 99, f := 210.2 } },
    temp_unit := .C,
    liquid_level := { level := 2 },
    battery := { percent := 50, charging := false },
    liquid_state := .Heating,
    color := { r := 255, g := 0, b := 0, a := 255 } }

lemma fillSlots_length (tasks : List (Except Err Value)) (order : List ℕ)
    (slots : List (Option Value)) (err : Option Err) :
    (fillSlots tasks order slots err).1.length = slots.length := by
  induction order generalizing slots err with
  | nil => rfl
  | cons i rest ih =>
      simp only [fillSlots, ih, List.length_set]

lemma fillSlots_fst_getElem (tasks : List (Except Err Value))
    (order : List ℕ) (slots : List (Option Value)) (err : Option Err)
    (j : ℕ) :
    (fillSlots tasks order slots err).1[j]? =
      if j ∈ order ∧ j < slots.length then some (writeVal tasks j)
      else slots[j]? := by
  induction order generalizing slots err with
  | nil => simp [fillSlots]
  | cons i rest ih =>
      simp only [fillSlots]
      rw [ih, List.length_set, List.getElem?_set]
      by_cases hjl : j < slots.length
      · by_cases hjr : j ∈ rest
        · simp [hjr, hjl]
        · by_cases hij : i = j
          · subst hij
            simp [hjr, hjl, List.mem_cons]
          · simp [hjr, hjl, hij, Ne.symm hij, List.mem_cons]
      · have hnone : slots[j]? = none := List.getElem?_eq_none (by omega)
        by_cases hij : i = j
        · subst hij
          simp [hjl, hnone]
        · simp [hjl, hij, hnone]

lemma fillSlots_snd_some (tasks : List (Except Err Value)) (order : List ℕ)
    (slots : List (Option Value)) (e : Err) :
    (fillSlots tasks order slots (some e)).2 = some e := by
  induction order generalizing slots with
  | nil => rfl
  | cons i rest ih => simp only [fillSlots, stepErr, ih]

lemma fillSlots_snd_no_err (tasks : List (Except Err Value))
    (order : List ℕ) (slots : List (Option Value))
    (h : ∀ i ∈ order, ∀ e, tasks[i]? ≠ some (.error e)) :
    (fillSlots tasks order slots none).2 = none := by
  induction order generalizing slots with
  | nil => rfl
  | cons i rest ih =>
      simp only [fillSlots]
      have hstep : stepErr tasks i none = none := by
        simp only [stepErr]
        cases htask : tasks[i]? with
        | none => rfl
        | some t =>
            cases t with
            | ok a => rfl
            | error e => exact absurd htask (h i (by simp) e)
      rw [hstep]
      exact ih _ fun i hi e => h i (by simp [hi]) e

lemma fillSlots_snd_first (tasks : List (Except Err Value))
    (order : List ℕ) (slots : List (Option Value)) (j : ℕ) (e : Err)
    (hj : j ∈ order) (herr : tasks[j]? = some (.error e))
    (hrest : ∀ i ∈ order, i ≠ j → ∀ e2, tasks[i]? ≠ some (.error e2)) :
    (fillSlots tasks order slots none).2 = some e := by
  induction order generalizing slots with
  | nil => cases hj
  | cons i rest ih =>
      simp only [fillSlots]
      by_cases hij : i = j
      · subst hij
        have hstep : stepErr tasks i none = some e := by
          simp [stepErr, herr]
        rw [hstep]
        exact fillSlots_snd_some tasks rest _ e
      · have hstep : stepErr tasks i none = none := by
          simp only [stepErr]
          cases htask : tasks[i]? with
          | none => rfl
          | some t =>
              cases t with
              | ok a => rfl
              | error e2 => exact absurd htask (hrest i (by simp) hij e2)
        rw [hstep]
        have hjr : j ∈ rest := by
          rcases List.mem_cons.mp hj with h1 | h1
          · exact absurd h1.symm hij
          · exact h1
        exact ih _ hjr fun i2 hi2 hne e2 =>
          hrest i2 (List.mem_cons_of_mem i hi2) hne e2

lemma fillSlots_snd_of_mem_err (tasks : List (Except Err Value))
    (order : List ℕ) (slots : List (Option Value)) (err : Option Err)
    (j : ℕ) (e : Err) (hj : j ∈ order)
    (herr : tasks[j]? = some (.error e)) :
    ∃ e2, (fillSlots tasks order slots err).2 = some e2 := by
  induction order generalizing slots err with
  | nil => cases hj
  | cons i rest ih =>
      simp only [fillSlots]
      by_cases hij : i = j
      · subst hij
        cases err with
        | some e0 =>
            exact ⟨e0, by simp only [stepErr]; exact
              fillSlots_snd_some tasks rest _ e0⟩
        | none =>
            refine ⟨e, ?_⟩
            have hstep : stepErr tasks i none = some e := by
              simp [stepErr, herr]
            rw [hstep]
            exact fillSlots_snd_some tasks rest _ e
      · have hjr : j ∈ rest := by
          rcases List.mem_cons.mp hj with h1 | h1
          · exact absurd h1.symm hij
          · exact h1
        exact ih _ _ hjr

lemma allSome_map_some (vs : List Value) :
    allSome (vs.map some) = some vs := by
  induction vs with
  | nil => rfl
  | cons v rest ih => simp [allSome, ih]

/-- `asyncio.gather` success case: when every task succeeds, the results
come back positionally, independent of the completion order (any order
that completes every task). -/
lemma gatherE_ok (vs : List Value) (order : List ℕ)
    (hcov : ∀ j, j < vs.length → j ∈ order) :
    gatherE (vs.map Except.ok) order = .ok vs := by
  have hlen : (vs.map (Except.ok (ε := Err))).length = vs.length := by
    simp
  have hsnd :
      (fillSlots (vs.map Except.ok) order
        (List.replicate (vs.map (Except.ok (ε := Err))).length none)
        none).2 = none := by
    apply fillSlots_snd_no_err
    intro i hi e
    intro hcontra
    rw [List.getElem?_map] at hcontra
    cases hv : vs[i]? with
    | none => rw [hv] at hcontra; simp at hcontra
    | some v => rw [hv] at hcontra; simp at hcontra
  have hfst :
      (fillSlots (vs.map Except.ok) order
        (List.replicate (vs.map (Except.ok (ε := Err))).length none)
        none).1 = vs.map some := by
    apply List.ext_getElem?
    intro j
    rw [fillSlots_fst_getElem]
    simp only [List.length_replicate, hlen]
    by_cases hjl : j < vs.length
    · have hwrite : writeVal (vs.map Except.ok) j = vs[j]? := by
        simp only [writeVal, List.getElem?_map]
        rw [List.getElem?_eq_getElem hjl]
        simp
      simp [hcov j hjl, hjl, hwrite, List.getElem?_map,
        List.getElem?_eq_getElem hjl]
    · have h1 : (List.replicate vs.length (none (α := Value)))[j]? = none :=
        List.getElem?_eq_none (by simp; omega)
      have h2 : (vs.map (some (α := Value)))[j]? = none :=
        List.getElem?_eq_none (by simp; omega)
      simp [hjl, h1, h2]
  simp only [gatherE, hsnd, hfst, allSome_map_some]

/-- `asyncio.gather` failure case: when exactly one task raises `e` and the
completion order completes it, the gather raises `e`. -/
lemma gatherE_err_first (tasks : List (Except Err Value)) (order : List ℕ)
    (j : ℕ) (e : Err) (hj : j ∈ order)
    (herr : tasks[j]? = some (.error e))
    (hrest : ∀ i ∈ order, i ≠ j → ∀ e2, tasks[i]? ≠ some (.error e2)) :
    gatherE tasks order = .error e := by
  have hsnd := fillSlots_snd_first tasks order
    (List.replicate tasks.length none) j e hj herr hrest
  simp only [gatherE, hsnd]

/-- `asyncio.gather` failure case: a raising task that the completion order
reaches prevents any successful result. -/
lemma gatherE_not_ok (tasks : List (Except Err Value)) (order : List ℕ)
    (j : ℕ) (e : Err) (hj : j ∈ order)
    (herr : tasks[j]? = some (.error e)) (vs : List Value) :
    gatherE tasks order ≠ .ok vs := by
  obtain ⟨e2, hsnd⟩ := fillSlots_snd_of_mem_err tasks order
    (List.replicate tasks.length none) none j e hj herr
  simp only [gatherE, hsnd]
  intro h
  cases h

lemma read_char_eq_name (resp : String → Except Err (List ℕ)) :
    read_char resp "mug-name" =
      (resp "fc540001-236c-4c94-8fa9-944a3e5353fa").bind
        fun d => (decode_mug_name d).map Value.name := rfl

lemma read_char_eq_current (resp : String → Except Err (List ℕ)) :
    read_char resp "current-temp" =
      (resp "fc540002-236c-4c94-8fa9-944a3e5353fa").bind
        fun d => (decode_current_temp d).map Value.currentTemp := rfl

lemma read_char_eq_target (resp : String → Except Err (List ℕ)) :
    read_char resp "target-temp" =
      (resp "fc540003-236c-4c94-8fa9-944a3e5353fa").bind
        fun d => (decode_target_temp d).map Value.targetTemp := rfl

lemma read_char_eq_unit (resp : String → Except Err (List ℕ)) :
    read_char resp "temp-unit" =
      (resp "fc540004-236c-4c94-8fa9-944a3e5353fa").bind
        fun d => (decode_temp_unit d).map Value.tempUnit := rfl

lemma read_char_eq_level (resp : String → Except Err (List ℕ)) :
    read_char resp "liquid-level" =
      (resp "fc540005-236c-4c94-8fa9-944a3e5353fa").bind
        fun d => (decode_liquid_level d).map Value.liquidLevel := rfl

lemma read_char_eq_battery (resp : String → Except Err (List ℕ)) :
    read_char resp "battery" =
      (resp "fc540007-236c-4c94-8fa9-944a3e5353fa").bind
        fun d => (decode_battery d).map Value.battery := rfl

lemma read_char_eq_state (resp : String → Except Err (List ℕ)) :
    read_char resp "liquid-state" =
      (resp "fc540008-236c-4c94-8fa9-944a3e5353fa").bind
        fun d => (decode_liquid_state d).map Value.liquidState := rfl

lemma read_char_eq_color (resp : String → Except Err (List ℕ)) :
    read_char resp "mug-color" =
      (resp "fc540014-236c-4c94-8fa9-944a3e5353fa").bind
        fun d => (decode_mug_color d).map Value.mugColor := rfl

lemma mugTasks_getElem (resp : String → Except Err (List ℕ)) (i : ℕ)
    (hi : i < 8) :
    (mugKeys.map (read_char resp))[i]? =
      some (read_char resp (mugKeys.getD i "")) := by
  interval_cases i <;> rfl

lemma mugTasks_length (resp : String → Except Err (List ℕ)) :
    (mugKeys.map (read_char resp)).length = 8 := rfl

lemma cycle_fst_temp_unit (st : LoopSt) (m : Mug) :
    (cycle st m).1.temp_unit = st.temp_unit := by
  by_cases h : st.state ≠ some m.liquid_state <;> simp [cycle, h]

lemma cycle_fst_temp_total (st : LoopSt) (m : Mug) :
    (cycle st m).1.temp_total = st.temp_total := by
  by_cases h : st.state ≠ some m.liquid_state <;> simp [cycle, h]

lemma cycle_snd_barTotal (st : LoopSt) (m : Mug) :
    (cycle st m).2.barTotal = st.temp_total := by
  by_cases h : st.state ≠ some m.liquid_state <;> simp [cycle, h]

lemma cycle_snd_tempCompleted (st : LoopSt) (m : Mug) :
    (cycle st m).2.tempCompleted = projectTemp st.temp_unit m.current_temp.temp := by
  by_cases h : st.state ≠ some m.liquid_state <;> simp [cycle, h]

lemma runLoop_getD_fixed (st : LoopSt) (ms : List Mug) (i : ℕ)
    (hi : i < ms.length) :
    ((runLoop st ms).getD i default).barTotal = st.temp_total
    ∧ ((runLoop st ms).getD i default).tempCompleted =
        projectTemp st.temp_unit ((ms.getD i default).current_temp.temp) := by
  induction ms generalizing st i with
  | nil => simp at hi
  | cons m rest ih =>
      cases i with
      | zero =>
          simp only [runLoop, List.getD]
          simp [cycle_snd_barTotal, cycle_snd_tempCompleted]
      | succ n =>
          have hn : n < rest.length := by simpa using hi
          have h := ih (cycle st m).1 n hn
          simpa [runLoop, List.getD, cycle_fst_temp_unit,
            cycle_fst_temp_total] using h

lemma read_temp_d007 : read_temp [208, 7] = .ok { c := 20, f := 68 } := by
  simp [read_temp, read_uint16, c_to_f, Except.map]
  norm_num

lemma read_temp_3600 : read_temp [16, 14] = .ok { c := 36, f := 96.8 } := by
  simp [read_temp, read_uint16, c_to_f, Except.map]
  norm_num

lemma decode_current_d007 :
    decode_current_temp [208, 7] = .ok { temp := { c := 20, f := 68 } } := by
  simp [decode_current_temp, read_temp_d007, Except.map]

lemma decode_target_d007 :
    decode_target_temp [208, 7] = .ok { temp := { c := 20, f := 68 } } := by
  simp [decode_target_temp, read_temp_d007, Except.map]

lemma decode_target_3600 :
    decode_target_temp [16, 14] = .ok { temp := { c := 36, f := 96.8 } } := by
  simp [decode_target_temp, read_temp_3600, Except.map]

/-- C1: for every 2-byte input whose signed little-endian 16-bit
interpretation is `r`, `read_temp` returns `Temp` with `c = r * 0.01` and
`f = c * 1.8 + 32` (`c_to_f c` is exactly `c * 1.8 + 32`); and every `Temp`
the program constructs — they all arise from `read_temp`, also through
`decode_current_temp` and `decode_target_temp` — satisfies `f = c_to_f c`,
so the two units are never set independently. -/
theorem read_temp_dual_unit :
    (∀ b0 b1 : ℕ, b0 < 256 → b1 < 256 →
      read_temp [b0, b1] =
        .ok { c := (int16_le b0 b1 : ℚ) * 0.01,
              f := ((int16_le b0 b1 : ℚ) * 0.01) * 1.8 + 32 })
    ∧ (∀ c : ℚ, c_to_f c = c * 1.8 + 32)
    ∧ (∀ data t, read_temp data = .ok t → t.f = c_to_f t.c)
    ∧ (∀ data t, decode_current_temp data = .ok t →
        t.temp.f = c_to_f t.temp.c)
    ∧ (∀ data t, decode_target_temp data = .ok t →
        t.temp.f = c_to_f t.temp.c) := by
  have h3 : ∀ data t, read_temp data = .ok t → t.f = c_to_f t.c := by
    intro data t h
    cases hru : read_uint16 data with
    | error e => simp [read_temp, hru, Except.map] at h
    | ok r =>
        simp only [read_temp, hru, Except.map, Except.ok.injEq] at h
        subst h
        rfl
  refine ⟨fun b0 b1 hb0 hb1 => rfl, fun c => rfl, h3, ?_, ?_⟩
  · intro data t h
    cases hrt : read_temp data with
    | error e => simp [decode_current_temp, hrt, Except.map] at h
    | ok tt =>
        simp only [decode_current_temp, hrt, Except.map, Except.ok.injEq] at h
        subst h
        exact h3 data tt hrt
  · intro data t h
    cases hrt : read_temp data with
    | error e => simp [decode_target_temp, hrt, Except.map] at h
    | ok tt =>
        simp only [decode_target_temp, hrt, Except.map, Except.ok.injEq] at h
        subst h
        exact h3 data tt hrt

/-- Witness for C1 at the concrete 2-byte input `[0xD0, 0x07]` (2000
little-endian, i.e. 20.00 °C). -/
theorem read_temp_dual_unit_witness :
    (208 : ℕ) < 256 ∧ (7 : ℕ) < 256
    ∧ read_temp [208, 7] =
        .ok { c := (int16_le 208 7 : ℚ) * 0.01,
              f := ((int16_le 208 7 : ℚ) * 0.01) * 1.8 + 32 }
    ∧ ({ c := 20, f := 68 } : Temp).f = c_to_f ({ c := 20, f := 68 } : Temp).c
    ∧ ({ temp := { c := 20, f := 68 } } : CurrentTemp).temp.f =
        c_to_f ({ temp := { c := 20, f := 68 } } : CurrentTemp).temp.c
    ∧ ({ temp := { c := 20, f := 68 } } : TargetTemp).temp.f =
        c_to_f ({ temp := { c := 20, f := 68 } } : TargetTemp).temp.c := by
  refine ⟨by norm_num, by norm_num,
    read_temp_dual_unit.1 208 7 (by norm_num) (by norm_num),
    read_temp_dual_unit.2.2.1 [208, 7] _ read_temp_d007,
    read_temp_dual_unit.2.2.2.1 [208, 7] _ decode_current_d007,
    read_temp_dual_unit.2.2.2.2 [208, 7] _ decode_target_d007⟩

/-- C4 counterexample: over the snapshot sequence with liquid states
`[Heating, Heating, Stable, Stable, Cooling]` the loop does NOT emit
exactly the two events `(Heating, Stable)` and `(Stable, Cooling)`:
because `previous_state` is initialized to none, the first snapshot
already triggers an event, so three events are emitted. -/
theorem transEvents_hhssc_not_two :
    transEvents (snapWith .Heating) snapsHHSSC ≠
      [(some .Heating, .Stable), (some .Stable, .Cooling)]
    ∧ (transEvents (snapWith .Heating) snapsHHSSC).length ≠ 2 := by
  decide

/-- C4 amended: over the snapshot sequence with liquid states
`[Heating, Heating, Stable, Stable, Cooling]` the loop emits exactly three
transition events — an initial `(none, Heating)` because `previous_state`
starts as none, then `(Heating, Stable)` and `(Stable, Cooling)`. -/
theorem transEvents_hhssc_three :
    transEvents (snapWith .Heating) snapsHHSSC =
      [(none, .Heating), (some .Heating, .Stable), (some .Stable, .Cooling)]
    ∧ (transEvents (snapWith .Heating) snapsHHSSC).length = 3 := by
  decide

/-- C5: the temperature decoder fails with a wrong-length error on 1-byte
and 3-byte inputs; the liquid-state decoder fails with an unknown-variant
error on bytes 0 and 7; the temp-unit decoder fails with an
unknown-variant error on byte 2. -/
theorem decode_reject_malformed :
    (∀ b : ℕ, read_temp [b] = .error .wrongLength)
    ∧ (∀ b0 b1 b2 : ℕ, read_temp [b0, b1, b2] = .error .wrongLength)
    ∧ decode_liquid_state [0] = .error .unknownVariant
    ∧ decode_liquid_state [7] = .error .unknownVariant
    ∧ decode_temp_unit [2] = .error .unknownVariant :=
  ⟨fun b => rfl, fun b0 b1 b2 => rfl, by decide, by decide, by decide⟩

/-- C6: unit projection — `C` selects the `.c` component, `F` selects the
`.f` component, both in `temp_str` and in the loop's progress projection;
on `Temp{c := 20, f := 68}` unit `F` yields 68 and unit `C` yields 20. -/
theorem unit_projection :
    temp_str { c := 20, f := 68 } .F = (68, "F")
    ∧ temp_str { c := 20, f := 68 } .C = (20, "C")
    ∧ projectTemp .F { c := 20, f := 68 } = 68
    ∧ projectTemp .C { c := 20, f := 68 } = 20
    ∧ (∀ t : Temp, temp_str t .C = (t.c, "C") ∧ temp_str t .F = (t.f, "F"))
    ∧ (∀ t : Temp, projectTemp .C t = t.c ∧ projectTemp .F t = t.f)
    ∧ (∀ st m, (cycle st m).2.tempCompleted =
        projectTemp st.temp_unit m.current_temp.temp) :=
  ⟨rfl, rfl, rfl, rfl, fun _ => ⟨rfl, rfl⟩, fun _ => ⟨rfl, rfl⟩,
   cycle_snd_tempCompleted⟩

/-- C7: concrete decode examples — bytes `[0xD0, 0x07]` decode to
`Temp{c := 20, f := 68}`, byte `[0x06]` decodes to `LiquidState.Stable`,
bytes `[0x32, 0x01]` decode to `Battery{percent := 50, charging := true}`. -/
theorem decode_examples :
    read_temp [208, 7] = .ok { c := 20, f := 68 }
    ∧ decode_liquid_state [6] = .ok .Stable
    ∧ decode_battery [50, 1] = .ok { percent := 50, charging := true } :=
  ⟨read_temp_d007, by decide, by decide⟩

/-- C9: the fixed-width decoders other than the temperature decoder do not
validate input length — extra trailing bytes are ignored (the result only
depends on the expected-width prefix, and succeeds whenever that prefix is
valid), while an input shorter than the expected width fails with the
untyped indexing error, not the wrong-length decode error. -/
theorem fixed_width_decoders_unchecked :
    (∀ b : ℕ, ∀ rest : List ℕ,
      decode_temp_unit (b :: rest) = decode_temp_unit [b])
    ∧ (∀ rest : List ℕ, decode_temp_unit (0 :: rest) = .ok .C)
    ∧ (∀ rest : List ℕ, decode_temp_unit (1 :: rest) = .ok .F)
    ∧ decode_temp_unit [] = .error .indexError
    ∧ (∀ b rest, decode_liquid_level (b :: rest) = .ok { level := b })
    ∧ decode_liquid_level [] = .error .indexError
    ∧ (∀ b rest, decode_liquid_state (b :: rest) = decode_liquid_state [b])
    ∧ (∀ rest, decode_liquid_state (6 :: rest) = .ok .Stable)
    ∧ decode_liquid_state [] = .error .indexError
    ∧ (∀ b0 b1 rest, decode_battery (b0 :: b1 :: rest) =
        .ok { percent := b0, charging := b1 != 0 })
    ∧ decode_battery [] = .error .indexError
    ∧ (∀ b0, decode_battery [b0] = .error .indexError)
    ∧ (∀ r g b a rest, decode_mug_color (r :: g :: b :: a :: rest) =
        .ok { r := r, g := g, b := b, a := a })
    ∧ decode_mug_color [] = .error .indexError
    ∧ (∀ r, decode_mug_color [r] = .error .indexError)
    ∧ (∀ r g, decode_mug_color [r, g] = .error .indexError)
    ∧ (∀ r g b, decode_mug_color [r, g, b] = .error .indexError)
    ∧ Err.indexError ≠ Err.wrongLength :=
  ⟨fun b rest => rfl, fun rest => rfl, fun rest => rfl, rfl,
   fun b rest => rfl, rfl,
   fun b rest => rfl, fun rest => rfl, rfl,
   fun b0 b1 rest => rfl, rfl, fun b0 => rfl,
   fun r g b a rest => rfl, rfl, fun r => rfl, fun r g => rfl,
   fun r g b => rfl, by decide⟩

/-- C10: the characteristic registry holds exactly the 8 canonical field
names, in order, and the 8 UUIDs it assigns them are pairwise distinct. -/
theorem registry_keys_and_uuids :
    CHARACTERISTICS.map (fun e => e.1) = mugKeys
    ∧ mugKeys = ["mug-name", "current-temp", "target-temp", "temp-unit",
                 "liquid-level", "battery", "liquid-state", "mug-color"]
    ∧ (CHARACTERISTICS.map (fun e => e.2.1)).Nodup := by
  refine ⟨rfl, rfl, ?_⟩
  decide

lemma stubFail_name :
    read_char stubRespFail "mug-name" = .ok (.name { name := "Ember" }) := by
  decide

lemma stubFail_current :
    read_char stubRespFail "current-temp" =
      .ok (.currentTemp { temp := { c := 20, f := 68 } }) := by
  rw [read_char_eq_current]
  have h : stubRespFail "fc540002-236c-4c94-8fa9-944a3e5353fa" =
      .ok [208, 7] := by decide
  rw [h]
  show (decode_current_temp [208, 7]).map Value.currentTemp = _
  rw [decode_current_d007]
  rfl

lemma stubFail_target :
    read_char stubRespFail "target-temp" =
      .ok (.targetTemp { temp := { c := 36, f := 96.8 } }) := by
  rw [read_char_eq_target]
  have h : stubRespFail "fc540003-236c-4c94-8fa9-944a3e5353fa" =
      .ok [16, 14] := by decide
  rw [h]
  show (decode_target_temp [16, 14]).map Value.targetTemp = _
  rw [decode_target_3600]
  rfl

lemma stubFail_unit :
    read_char stubRespFail "temp-unit" = .ok (.tempUnit .F) := by decide

lemma stubFail_level :
    read_char stubRespFail "liquid-level" =
      .ok (.liquidLevel { level := 2 }) := by decide

lemma stubFail_battery :
    read_char stubRespFail "battery" = .error .transport := by decide

lemma stubFail_state :
    read_char stubRespFail "liquid-state" = .ok (.liquidState .Stable) := by
  decide

lemma stubFail_color :
    read_char stubRespFail "mug-color" =
      .ok (.mugColor { r := 255, g := 0, b := 0, a := 255 }) := by decide

/-- C2: if any one of the 8 gathered characteristic reads (or its decode)
fails, `get_mug` fails — with that error when it is the sole failure — and
never returns a `Mug`, whatever the completion order of the reads. -/
theorem get_mug_atomic (resp : String → Except Err (List ℕ))
    (order : List ℕ) (hcov : ∀ j, j < 8 → j ∈ order)
    (j : ℕ) (hj : j < 8) (e : Err)
    (herr : read_char resp (mugKeys.getD j "") = .error e) :
    ((∀ i, i < 8 → i ≠ j → ∃ v, read_char resp (mugKeys.getD i "") = .ok v) →
      get_mug resp order = .error e)
    ∧ ∀ m, get_mug resp order ≠ .ok m := by
  have htask : (mugKeys.map (read_char resp))[j]? =
      some (.error e) := by
    rw [mugTasks_getElem resp j hj, herr]
  constructor
  · intro hok
    have hrest : ∀ i ∈ order, i ≠ j → ∀ e2,
        (mugKeys.map (read_char resp))[i]? ≠ some (.error e2) := by
      intro i hi hne e2 hcontra
      by_cases hi8 : i < 8
      · rw [mugTasks_getElem resp i hi8] at hcontra
        obtain ⟨v, hv⟩ := hok i hi8 hne
        rw [hv] at hcontra
        simp at hcontra
      · have hnone : (mugKeys.map (read_char resp))[i]? = none :=
          List.getElem?_eq_none (by rw [mugTasks_length]; omega)
        rw [hnone] at hcontra
        simp at hcontra
    have hg := gatherE_err_first (mugKeys.map (read_char resp)) order j e
      (hcov j hj) htask hrest
    simp only [get_mug, hg]
    rfl
  · intro m hcontra
    cases hg : gatherE (mugKeys.map (read_char resp)) order with
    | error e2 => simp [get_mug, hg, Except.bind] at hcontra
    | ok vs =>
        exact gatherE_not_ok (mugKeys.map (read_char resp)) order j e
          (hcov j hj) htask vs hg

/-- Witness for C2: a stub transport whose battery read (index 5) raises a
transport error while the other 7 reads succeed; `get_mug` fails with that
error and returns no `Mug`, under completion order `[0..7]`. -/
theorem get_mug_atomic_witness :
    (5 : ℕ) < 8
    ∧ read_char stubRespFail (mugKeys.getD 5 "") = .error .transport
    ∧ get_mug stubRespFail [0, 1, 2, 3, 4, 5, 6, 7] = .error .transport
    ∧ ∀ m, get_mug stubRespFail [0, 1, 2, 3, 4, 5, 6, 7] ≠ .ok m := by
  have hthm := get_mug_atomic stubRespFail [0, 1, 2, 3, 4, 5, 6, 7]
    (by decide) 5 (by norm_num) .transport stubFail_battery
  refine ⟨by norm_num, stubFail_battery, hthm.1 ?_, hthm.2⟩
  intro i hi hne
  interval_cases i
  · exact ⟨_, stubFail_name⟩
  · exact ⟨_, stubFail_current⟩
  · exact ⟨_, stubFail_target⟩
  · exact ⟨_, stubFail_unit⟩
  · exact ⟨_, stubFail_level⟩
  · exact absurd rfl hne
  · exact ⟨_, stubFail_state⟩
  · exact ⟨_, stubFail_color⟩

/-- C3: for any assignment of response bytes to the 8 transport UUIDs, the
assembled `Mug`'s fields equal the decode of the bytes read for the
matching field name — name from mug-name (UUID fc540001-…), current_temp
from current-temp (fc540002-…), target_temp from target-temp (fc540003-…),
temp_unit from temp-unit (fc540004-…), liquid_level from liquid-level
(fc540005-…), battery from battery (fc540007-…), liquid_state from
liquid-state (fc540008-…), color from mug-color (fc540014-…) — for every
completion order of the 8 concurrent reads. -/
theorem get_mug_field_mapping (resp : String → Except Err (List ℕ))
    (order : List ℕ) (hcov : ∀ j, j < 8 → j ∈ order)
    (d1 d2 d3 d4 d5 d6 d7 d8 : List ℕ) (nv : MugName) (ctv : CurrentTemp)
    (ttv : TargetTemp) (tuv : TempUnit) (llv : LiquidLevel) (bv : Battery)
    (lsv : LiquidState) (cv : MugColor)
    (h1 : resp "fc540001-236c-4c94-8fa9-944a3e5353fa" = .ok d1)
    (h1d : decode_mug_name d1 = .ok nv)
    (h2 : resp "fc540002-236c-4c94-8fa9-944a3e5353fa" = .ok d2)
    (h2d : decode_current_temp d2 = .ok ctv)
    (h3 : resp "fc540003-236c-4c94-8fa9-944a3e5353fa" = .ok d3)
    (h3d : decode_target_temp d3 = .ok ttv)
    (h4 : resp "fc540004-236c-4c94-8fa9-944a3e5353fa" = .ok d4)
    (h4d : decode_temp_unit d4 = .ok tuv)
    (h5 : resp "fc540005-236c-4c94-8fa9-944a3e5353fa" = .ok d5)
    (h5d : decode_liquid_level d5 = .ok llv)
    (h6 : resp "fc540007-236c-4c94-8fa9-944a3e5353fa" = .ok d6)
    (h6d : decode_battery d6 = .ok bv)
    (h7 : resp "fc540008-236c-4c94-8fa9-944a3e5353fa" = .ok d7)
    (h7d : decode_liquid_state d7 = .ok lsv)
    (h8 : resp "fc540014-236c-4c94-8fa9-944a3e5353fa" = .ok d8)
    (h8d : decode_mug_color d8 = .ok cv) :
    get_mug resp order =
      .ok { name := nv, current_temp := ctv, target_temp := ttv,
            temp_unit := tuv, liquid_level := llv, battery := bv,
            liquid_state := lsv, color := cv } := by
  have e1 : read_char resp "mug-name" = .ok (.name nv) := by
    rw [read_char_eq_name, h1]
    show (decode_mug_name d1).map Value.name = _
    rw [h1d]; rfl
  have e2 : read_char resp "current-temp" = .ok (.currentTemp ctv) := by
    rw [read_char_eq_current, h2]
    show (decode_current_temp d2).map Value.currentTemp = _
    rw [h2d]; rfl
  have e3 : read_char resp "target-temp" = .ok (.targetTemp ttv) := by
    rw [read_char_eq_target, h3]
    show (decode_target_temp d3).map Value.targetTemp = _
    rw [h3d]; rfl
  have e4 : read_char resp "temp-unit" = .ok (.tempUnit tuv) := by
    rw [read_char_eq_unit, h4]
    show (decode_temp_unit d4).map Value.tempUnit = _
    rw [h4d]; rfl
  have e5 : read_char resp "liquid-level" = .ok (.liquidLevel llv) := by
    rw [read_char_eq_level, h5]
    show (decode_liquid_level d5).map Value.liquidLevel = _
    rw [h5d]; rfl
  have e6 : read_char resp "battery" = .ok (.battery bv) := by
    rw [read_char_eq_battery, h6]
    show (decode_battery d6).map Value.battery = _
    rw [h6d]; rfl
  have e7 : read_char resp "liquid-state" = .ok (.liquidState lsv) := by
    rw [read_char_eq_state, h7]
    show (decode_liquid_state d7).map Value.liquidState = _
    rw [h7d]; rfl
  have e8 : read_char resp "mug-color" = .ok (.mugColor cv) := by
    rw [read_char_eq_color, h8]
    show (decode_mug_color d8).map Value.mugColor = _
    rw [h8d]; rfl
  have htasks : mugKeys.map (read_char resp) =
      ([.name nv, .currentTemp ctv, .targetTemp ttv, .tempUnit tuv,
        .liquidLevel llv, .battery bv, .liquidState lsv, .mugColor cv] :
        List Value).map Except.ok := by
    show [read_char resp "mug-name", read_char resp "current-temp",
          read_char resp "target-temp", read_char resp "temp-unit",
          read_char resp "liquid-level", read_char resp "battery",
          read_char resp "liquid-state", read_char resp "mug-color"] = _
    rw [e1, e2, e3, e4, e5, e6, e7, e8]
    rfl
  show (gatherE (mugKeys.map (read_char resp)) order).bind mkMug = _
  rw [htasks, gatherE_ok _ order (fun jj hjj => hcov jj (by simpa using hjj))]
  rfl

/-- Witness for C3: the all-succeeding stub transport with completion
order `[7, 6, 5, 4, 3, 2, 1, 0]` (reverse of launch order) still yields
the positionally assembled `Mug`. -/
theorem get_mug_field_mapping_witness :
    get_mug stubResp [7, 6, 5, 4, 3, 2, 1, 0] =
      .ok { name := { name := "Ember" },
            current_temp := { temp := { c := 20, f := 68 } },
            target_temp := { temp := { c := 36, f := 96.8 } },
            temp_unit := .F,
            liquid_level := { level := 2 },
            battery := { percent := 50, charging := true },
            liquid_state := .Stable,
            color := { r := 255, g := 0, b := 0, a := 255 } } := by
  exact get_mug_field_mapping stubResp [7, 6, 5, 4, 3, 2, 1, 0] (by decide)
    [69, 109, 98, 101, 114] [208, 7] [16, 14] [1] [2] [50, 1] [6]
    [255, 0, 0, 255]
    { name := "Ember" } { temp := { c := 20, f := 68 } }
    { temp := { c := 36, f := 96.8 } } .F { level := 2 }
    { percent := 50, charging := true } .Stable
    { r := 255, g := 0, b := 0, a := 255 }
    (by decide) (by decide)
    (by decide) decode_current_d007
    (by decide) decode_target_3600
    (by decide) (by decide)
    (by decide) (by decide)
    (by decide) (by decide)
    (by decide) (by decide)
    (by decide) (by decide)

/-- C8: in every cycle of the poll loop, the unit used to project
`current_temp` and the progress-bar total are the ones captured from the
first snapshot — even when the cycle's own snapshot reports a different
`temp_unit` or `target_temp`. -/
theorem poll_unit_total_from_first (m0 : Mug) (ms : List Mug) (i : ℕ)
    (hi : i < ms.length) :
    ((pollOutputs m0 ms).getD i default).barTotal =
      (if m0.temp_unit = TempUnit.F then m0.target_temp.temp.f
       else m0.target_temp.temp.c)
    ∧ ((pollOutputs m0 ms).getD i default).tempCompleted =
        projectTemp m0.temp_unit ((ms.getD i default).current_temp.temp) := by
  have h := runLoop_getD_fixed (initLoopSt m0) ms i hi
  simpa [initLoopSt, pollOutputs] using h

/-- Witness for C8: the first snapshot is in Fahrenheit with target 131 °F;
the later snapshot reports unit C and a different target, yet the cycle
still projects with F (68, not 20) against total 131. -/
theorem poll_unit_total_from_first_witness :
    (0 : ℕ) < [mugLater].length
    ∧ mugLater.temp_unit ≠ mugF.temp_unit
    ∧ mugLater.target_temp ≠ mugF.target_temp
    ∧ ((pollOutputs mugF [mugLater]).getD 0 default).barTotal = 131
    ∧ ((pollOutputs mugF [mugLater]).getD 0 default).tempCompleted = 68 := by
  have h := poll_unit_total_from_first mugF [mugLater] 0 (by norm_num)
  refine ⟨by norm_num, by decide, by decide, ?_, ?_⟩
  · have h1 := h.1
    simpa [mugF] using h1
  · have h2 := h.2
    simpa [mugF, mugLater, projectTemp] using h2
